import Mathlib

set_option maxHeartbeats 800000

/-!
Verification of the OwL Browser chrome UI client (src/assets/ui.js).

This file is a shallow embedding of the pure logic of the UI client: the
bridge `send` wrapper, the TabNode forest and its traversals (`renderNodes`,
`filterNodes`, `updateTreeFavicon`, `findActive`), the state-application
functions (`applyState`, `applyNavState`, `applyAssets`, `applyFaviconUpdate`,
`applySidebarState`) and the inbound dispatcher `window.__owl_receive`.
JavaScript strings-or-undefined become `Option String`, tab ids become `Nat`
(with JS falsiness of the number `0` modeled where the source tests
truthiness of an id), in-place mutation becomes explicit state passing on a
`ClientState` record, and console output becomes an explicit log value.
-/

namespace OwlUi

/-- JS `hay.includes(needle)`: substring containment over the characters. -/
def strIncludes (hay needle : String) : Bool :=
  decide (needle.toList <:+: hay.toList)

/-- JS `v || null` applied to a string-or-null value: a falsy string (only the
empty string) collapses to null, everything else passes through. -/
def jsOrNull (v : Option String) : Option String :=
  match v with
  | some s => if s = "" then Option.none else some s
  | Option.none => Option.none

/-- A sidebar tab node as carried by `state.tabs` payloads (src/assets/ui.js).
Fields mirror the TabNode shape used by the client: id, title, url,
favicon_uri, the flag booleans, and the ordered recursive children list.
`Option` marks fields the client reads with optional chaining / `||`
fallbacks, i.e. fields that may be null or absent on the wire. -/
inductive TabNode where
  | mk (id : Nat) (title : Option String) (url : Option String)
      (favicon_uri : Option String) (is_group : Bool) (is_pinned : Bool)
      (is_muted : Bool) (is_suspended : Bool) (is_active : Bool)
      (is_expanded : Bool) (children : List TabNode)

def TabNode.id : TabNode → Nat
  | .mk i _ _ _ _ _ _ _ _ _ _ => i

def TabNode.title : TabNode → Option String
  | .mk _ t _ _ _ _ _ _ _ _ _ => t

def TabNode.url : TabNode → Option String
  | .mk _ _ u _ _ _ _ _ _ _ _ => u

def TabNode.favicon_uri : TabNode → Option String
  | .mk _ _ _ f _ _ _ _ _ _ _ => f

def TabNode.is_group : TabNode → Bool
  | .mk _ _ _ _ g _ _ _ _ _ _ => g

def TabNode.is_pinned : TabNode → Bool
  | .mk _ _ _ _ _ p _ _ _ _ _ => p

def TabNode.is_muted : TabNode → Bool
  | .mk _ _ _ _ _ _ m _ _ _ _ => m

def TabNode.is_suspended : TabNode → Bool
  | .mk _ _ _ _ _ _ _ s _ _ _ => s

def TabNode.is_active : TabNode → Bool
  | .mk _ _ _ _ _ _ _ _ a _ _ => a

def TabNode.is_expanded : TabNode → Bool
  | .mk _ _ _ _ _ _ _ _ _ e _ => e

def TabNode.children : TabNode → List TabNode
  | .mk _ _ _ _ _ _ _ _ _ _ c => c

/-- In-place assignment `node.favicon_uri = f` expressed functionally. -/
def TabNode.setFavicon : TabNode → Option String → TabNode
  | .mk i t u _ g p m s a e c, f => .mk i t u f g p m s a e c

/-- Replacing a node's children list (used to express the recursive favicon
update, whose mutation happens below the node, functionally). -/
def TabNode.setChildren : TabNode → List TabNode → TabNode
  | .mk i t u f g p m s a e _, c => .mk i t u f g p m s a e c

/-- The object spread built by `filterNodes` for a kept node:
`... node, children: cs, is_expanded: true`. -/
def TabNode.expandedWith : TabNode → List TabNode → TabNode
  | .mk i t u f g p m s a _ _, cs => .mk i t u f g p m s a true cs

theorem sizeOf_children_lt (n : TabNode) : sizeOf n.children < sizeOf n := by
  cases n
  simp [TabNode.children]

theorem sizeOf_children_lt_cons (n : TabNode) (rest : List TabNode) :
    sizeOf n.children < 1 + sizeOf n + sizeOf rest :=
  Nat.lt_of_lt_of_le (sizeOf_children_lt n) (by omega)

/-- Forest induction principle matching the recursion of the UI's tree
walkers: to prove a property of every node list it suffices to prove it for
`[]` and for `n :: rest` given it for `n.children` and for `rest`. -/
theorem forestInd (P : List TabNode → Prop) (hnil : P ([] : List TabNode))
    (hcons : ∀ (n : TabNode) (rest : List TabNode),
      P n.children → P rest → P (n :: rest)) :
    ∀ nodes, P nodes
  | [] => hnil
  | n :: rest =>
      hcons n rest (forestInd P hnil hcons n.children) (forestInd P hnil hcons rest)
termination_by nodes => sizeOf nodes
decreasing_by
  · exact sizeOf_children_lt_cons n rest
  · simp

/-- `renderNodes(nodes, depth, fragment)` from src/assets/ui.js, as the list of
(node, depth) pairs in the order rows are appended to the fragment — which is
also the order ids are pushed onto `state.flatTabs` and inserted into
`state.tabMap`. A node's children are walked only when
`node.children?.length && node.is_expanded`. -/
def renderNodes : List TabNode → Nat → List (TabNode × Nat)
  | [], _ => []
  | n :: rest, depth =>
      (n, depth) ::
        ((if !n.children.isEmpty && n.is_expanded then
            renderNodes n.children (depth + 1)
          else []) ++ renderNodes rest depth)
termination_by nodes _ => sizeOf nodes
decreasing_by
  · exact sizeOf_children_lt_cons n rest
  · simp

/-- The flat keyboard-navigation order `state.flatTabs` produced by rendering
a forest (ids in row order, depth dropped). -/
def flatIds (nodes : List TabNode) : List Nat :=
  (renderNodes nodes 0).map (fun p => p.fst.id)

/-- The rendered rows as (id, depth) pairs, in DOM order. -/
def rowsOf (nodes : List TabNode) : List (Nat × Nat) :=
  (renderNodes nodes 0).map (fun p => (p.fst.id, p.snd))

/-- Specification-side traversal: the depth-first preorder of the forest
restricted to nodes all of whose proper ancestors have `is_expanded = true`
(children of an unexpanded node are pruned, regardless of whether the node
has children). Written from the spec sentence, to be compared with the
code-side `renderNodes`. -/
def preorderRestricted : List TabNode → List Nat
  | [] => []
  | n :: rest =>
      n.id ::
        ((if n.is_expanded then preorderRestricted n.children else []) ++
          preorderRestricted rest)
termination_by nodes => sizeOf nodes
decreasing_by
  · exact sizeOf_children_lt_cons n rest
  · simp

/-- The full (unrestricted) depth-first preorder of ids. -/
def preorderIds : List TabNode → List Nat
  | [] => []
  | n :: rest => n.id :: (preorderIds n.children ++ preorderIds rest)
termination_by nodes => sizeOf nodes
decreasing_by
  · exact sizeOf_children_lt_cons n rest
  · simp

/-- `findActive(nodes, id)` from src/assets/ui.js: first node with the given
id in depth-first preorder. -/
def findActive : List TabNode → Nat → Option TabNode
  | [], _ => Option.none
  | n :: rest, i =>
      if n.id = i then some n
      else
        match findActive n.children i with
        | some found => some found
        | Option.none => findActive rest i
termination_by nodes _ => sizeOf nodes
decreasing_by
  · exact sizeOf_children_lt_cons n rest
  · simp

/-- `node.title?.toLowerCase() || ""` resp. `node.url?.toLowerCase() || ""`
followed by `.includes(needle)`: does the node match a lowercased needle? -/
def nodeMatches (needle : String) (n : TabNode) : Bool :=
  strIncludes ((n.title.getD "").toLower) needle ||
    strIncludes ((n.url.getD "").toLower) needle

/-- `filterNodes(nodes, query)` from src/assets/ui.js. An empty (falsy) query
returns the input list itself; otherwise a node is kept when it matches the
lowercased query or its filtered children list is nonempty, and a kept node
is rebuilt by object spread with the filtered children and
`is_expanded: true`. The source computes `needle = query.toLowerCase()` once
per invocation and recurses into nonempty children lists with the same
(still non-empty) query. -/
def filterNodes (nodes : List TabNode) (query : String) : List TabNode :=
  if query = "" then nodes
  else
    match nodes with
    | [] => []
    | n :: rest =>
        let needle := query.toLower
        let matched := nodeMatches needle n
        let childrenF :=
          if n.children.isEmpty then [] else filterNodes n.children query
        if matched || !childrenF.isEmpty then
          n.expandedWith childrenF :: filterNodes rest query
        else filterNodes rest query
termination_by sizeOf nodes
decreasing_by
  · exact sizeOf_children_lt_cons n rest
  · simp

/-- `updateTreeFavicon(nodes, ids, faviconUri)` from src/assets/ui.js: walk
the forest, assigning `node.favicon_uri = faviconUri` to every node whose id
is in the set `ids`, recursing into nonempty children lists. The in-place
mutation is rendered functionally: each node is rebuilt with its
possibly-updated favicon and its recursively-updated children. -/
def updateTreeFavicon : List TabNode → List Nat → Option String → List TabNode
  | [], _, _ => []
  | n :: rest, ids, uri =>
      let fav := if ids.contains n.id then uri else n.favicon_uri
      let cs :=
        if n.children.isEmpty then n.children
        else updateTreeFavicon n.children ids uri
      (n.setFavicon fav).setChildren cs :: updateTreeFavicon rest ids uri
termination_by nodes _ _ => sizeOf nodes
decreasing_by
  · exact sizeOf_children_lt_cons n rest
  · simp

/-- Some node of a forest is kept by the filter: it matches the lowercased
query itself or some node below it does. -/
def keepsAny (needle : String) : List TabNode → Bool
  | [] => false
  | n :: rest =>
      (nodeMatches needle n || keepsAny needle n.children) ||
        keepsAny needle rest
termination_by l => sizeOf l
decreasing_by
  · exact sizeOf_children_lt_cons n rest
  · simp

/-- Spec-side "kept" predicate of the filter claim: a node is kept exactly
when its title or url contains the query case-insensitively or at least one
of its descendants is kept — and a descendant is kept exactly when one of the
node's children is kept, which `keepsAny` expresses directly. -/
def keeps (needle : String) (n : TabNode) : Bool :=
  nodeMatches needle n || keepsAny needle n.children

/-- Spec-side filter of claim C9: keep exactly the `keeps` nodes, preserving
their order and every field verbatim, except that a kept node's children are
replaced by their filtered sublist and its `is_expanded` is forced to true. -/
def specFilter (needle : String) : List TabNode → List TabNode
  | [] => []
  | n :: rest =>
      if keeps needle n then
        TabNode.mk n.id n.title n.url n.favicon_uri n.is_group n.is_pinned
            n.is_muted n.is_suspended n.is_active true
            (specFilter needle n.children) ::
          specFilter needle rest
      else specFilter needle rest
termination_by l => sizeOf l
decreasing_by
  · exact sizeOf_children_lt_cons n rest
  · simp
  · simp

/-- Spec-side favicon update of claim C7: every node whose id is listed gets
the new favicon value, and every other node and every other field (including
the forest shape and ordering) is reproduced verbatim. -/
def specSetFavicon (ids : List Nat) (uri : Option String) :
    List TabNode → List TabNode
  | [] => []
  | n :: rest =>
      TabNode.mk n.id n.title n.url
          (if ids.contains n.id then uri else n.favicon_uri) n.is_group
          n.is_pinned n.is_muted n.is_suspended n.is_active n.is_expanded
          (specSetFavicon ids uri n.children) ::
        specSetFavicon ids uri rest
termination_by l => sizeOf l
decreasing_by
  · exact sizeOf_children_lt_cons n rest
  · simp

/-- Forget every favicon in a forest: the projection under which any favicon
update must act as the identity (frame condition of claim C7). -/
def eraseFavicons : List TabNode → List TabNode
  | [] => []
  | n :: rest =>
      (n.setFavicon Option.none).setChildren (eraseFavicons n.children) ::
        eraseFavicons rest
termination_by l => sizeOf l
decreasing_by
  · exact sizeOf_children_lt_cons n rest
  · simp

/-- The two modes of the combined reload/stop control
(`elements.navReload.dataset.mode`). -/
inductive ReloadMode where
  | stop
  | reload
deriving DecidableEq

/-- The mutable client state of src/assets/ui.js: the `state` object
(flatTabs, activeTabId, sidebarCollapsed, defaultFavicon, tabMap, tabQuery,
lastTabs, lastActive), the `menuState` object, and the DOM cells the
state-application functions write: the rendered sidebar rows (id and depth
per row, in DOM order), the address field value, the nav buttons' disabled
flags, the reload/stop control's mode, and the body `is-loading` class. -/
structure ClientState where
  flatTabs : List Nat
  activeTabId : Option Nat
  sidebarCollapsed : Bool
  defaultFavicon : Option String
  tabMap : List (Nat × TabNode)
  tabQuery : String
  lastTabs : List TabNode
  lastActive : Option Nat
  menuOpen : Bool
  menuTabId : Option Nat
  renderedRows : List (Nat × Nat)
  addressValue : String
  navBackDisabled : Bool
  navForwardDisabled : Bool
  reloadMode : ReloadMode
  bodyLoading : Bool

/-- JS `Map.get`. -/
def mapGet : List (Nat × TabNode) → Nat → Option TabNode
  | [], _ => Option.none
  | e :: rest, k => if e.fst = k then some e.snd else mapGet rest k

/-- JS `Map.set`: overwrite the value at an existing key (keeping insertion
order), else append a fresh entry. -/
def mapSet : List (Nat × TabNode) → Nat → TabNode → List (Nat × TabNode)
  | [], k, v => [(k, v)]
  | e :: rest, k, v =>
      if e.fst = k then (k, v) :: rest else e :: mapSet rest k v

/-- `renderTabs(nodes)` from src/assets/ui.js: reset `state.flatTabs` and
`state.tabMap`, walk the forest with `renderNodes`, and replace the sidebar
DOM with the fresh rows. -/
def renderTabsOn (s : ClientState) (nodes : List TabNode) : ClientState :=
  let walk := renderNodes nodes 0
  { s with
    flatTabs := walk.map (fun p => p.fst.id)
    tabMap := walk.foldl (fun m p => mapSet m p.fst.id p.fst) []
    renderedRows := walk.map (fun p => (p.fst.id, p.snd)) }

/-- `applyState(newState)` from src/assets/ui.js, handling a `state.tabs`
payload: store the active id and the snapshot, re-render through the current
search filter, close the tab context menu, and copy the active node's url
into the address bar. The source guards the lookup on the truthiness of
`state.lastActive`, so the JS number 0 is treated like a missing active id. -/
def applyState (s : ClientState) (tabs : List TabNode) (active : Option Nat) :
    ClientState :=
  let s1 := { s with activeTabId := active, lastTabs := tabs, lastActive := active }
  let s2 := renderTabsOn s1 (filterNodes s1.lastTabs s1.tabQuery)
  let s3 := { s2 with menuOpen := false, menuTabId := Option.none }
  let activeNode :=
    match s3.lastActive with
    | some i => if i = 0 then Option.none else findActive s3.lastTabs i
    | Option.none => Option.none
  let addr :=
    match activeNode with
    | some n => n.url.getD ""
    | Option.none => s3.addressValue
  { s3 with addressValue := addr }

/-- `applyNavState(nav)` from src/assets/ui.js: the Back/Forward buttons are
disabled exactly when the corresponding capability flag is false, the body
`is-loading` class mirrors `is_loading`, and the combined reload control is
put in stop mode while loading and reload mode otherwise. -/
def applyNavState (s : ClientState) (can_go_back can_go_forward is_loading : Bool) :
    ClientState :=
  { s with
    navBackDisabled := !can_go_back
    navForwardDisabled := !can_go_forward
    bodyLoading := is_loading
    reloadMode := if is_loading then ReloadMode.stop else ReloadMode.reload }

/-- The click handler of the reload/stop control in `setupEventHandlers`:
reads the control's current mode and sends `nav.stop` in stop mode and
`nav.reload` otherwise. -/
def reloadClickType (s : ClientState) : String :=
  if s.reloadMode = ReloadMode.stop then "nav.stop" else "nav.reload"

/-- `applyAssets(payload)` from src/assets/ui.js: a falsy `default_favicon`
returns early, otherwise it is stored (the remaining work only repaints DOM
images). -/
def applyAssets (s : ClientState) (default_favicon : Option String) :
    ClientState :=
  match default_favicon with
  | Option.none => s
  | some v => if v = "" then s else { s with defaultFavicon := some v }

/-- `applySidebarState(collapsed)` from src/assets/ui.js (the body class,
toggle label and tab titles are DOM mirrors of the stored flag). -/
def applySidebarState (s : ClientState) (collapsed : Bool) : ClientState :=
  { s with sidebarCollapsed := collapsed }

/-- `applyFaviconUpdate(payload)` from src/assets/ui.js: a missing or empty
`ids` list returns early; otherwise the stored tree is updated through
`updateTreeFavicon` with the normalized uri `payload.favicon_uri || null`,
and the same normalized uri is written to each listed entry of `tabMap` (and
to the corresponding DOM rows, which only mirror these values). -/
def applyFaviconUpdate (s : ClientState) (ids : List Nat)
    (favicon_uri : Option String) : ClientState :=
  if ids.isEmpty then s
  else
    let uri := jsOrNull favicon_uri
    let tabsU := updateTreeFavicon s.lastTabs ids uri
    let mapU :=
      ids.foldl
        (fun m i =>
          match mapGet m i with
          | some n => mapSet m i (n.setFavicon uri)
          | Option.none => m)
        s.tabMap
    { s with lastTabs := tabsU, tabMap := mapU }

/-- The payload of an inbound bridge message, shaped per outbound state type
of the core (spec §6). `other` stands for a payload that decodes to none of
the five shapes; the dispatcher never inspects the payload of an unhandled
type. -/
inductive Payload where
  | tabs (tabs : List TabNode) (active : Option Nat)
  | nav (can_go_back : Bool) (can_go_forward : Bool) (is_loading : Bool)
  | assets (default_favicon : Option String)
  | favicon (ids : List Nat) (favicon_uri : Option String)
  | sidebar (collapsed : Bool)
  | other

/-- An inbound bridge message: a possibly-missing `type` and a payload. The
whole message being `null`/`undefined` is modeled as `Option.none` at the
call site of `owlReceive`. -/
structure Message where
  type : Option String
  payload : Payload

/-- The outcome of one `window.__owl_receive` invocation: either the new
client state or a thrown JS error, together with the console output produced
during handling (the source writes nothing to the console on this path, so
the log is always empty). -/
structure ReceiveOut where
  result : Except String ClientState
  log : List String

/-- The five own property names of the `messageHandlers` object literal. -/
def handledTypes : List String :=
  ["state.tabs", "state.nav", "state.assets", "state.favicon", "state.sidebar"]

/-- Property names that `messageHandlers[message.type]` finds inherited from
`Object.prototype` and whose optional call `?.()` then throws a TypeError:
`__proto__` evaluates to the non-callable `Object.prototype`, and
`__defineGetter__` / `__defineSetter__` are callable but throw when invoked
with no arguments. Every other inherited name resolves to a built-in whose
zero-argument invocation returns normally and touches no UI state. -/
def objectProtoThrowing : List String :=
  ["__proto__", "__defineGetter__", "__defineSetter__"]

def protoTypeError : String :=
  "TypeError: value inherited from Object.prototype cannot be invoked here"

/-- `window.__owl_receive(message)` from src/assets/ui.js. A falsy message or
a falsy `message.type` (missing, or the empty string) returns early.
Otherwise the type is looked up in the `messageHandlers` object literal: an
own property applies the matching handler to `message.payload`; any other
type finds nothing own, so the optional call does nothing — except the
inherited `Object.prototype` names of `objectProtoThrowing`, where the lookup
plus call throws. A payload that does not decode to the dispatched handler's
shape is modeled as a no-op (no claim exercises a shape-mismatched payload).
No path writes to the console. -/
def owlReceive (msg : Option Message) (s : ClientState) : ReceiveOut :=
  match msg with
  | Option.none => ⟨Except.ok s, []⟩
  | some m =>
      match m.type with
      | Option.none => ⟨Except.ok s, []⟩
      | some t =>
          if t = "" then ⟨Except.ok s, []⟩
          else if t = "state.tabs" then
            match m.payload with
            | Payload.tabs tbs act => ⟨Except.ok (applyState s tbs act), []⟩
            | _ => ⟨Except.ok s, []⟩
          else if t = "state.nav" then
            match m.payload with
            | Payload.nav b f l => ⟨Except.ok (applyNavState s b f l), []⟩
            | _ => ⟨Except.ok s, []⟩
          else if t = "state.assets" then
            match m.payload with
            | Payload.assets d => ⟨Except.ok (applyAssets s d), []⟩
            | _ => ⟨Except.ok s, []⟩
          else if t = "state.favicon" then
            match m.payload with
            | Payload.favicon ids uri =>
                ⟨Except.ok (applyFaviconUpdate s ids uri), []⟩
            | _ => ⟨Except.ok s, []⟩
          else if t = "state.sidebar" then
            match m.payload with
            | Payload.sidebar c => ⟨Except.ok (applySidebarState s c), []⟩
            | _ => ⟨Except.ok s, []⟩
          else if t ∈ objectProtoThrowing then ⟨Except.error protoTypeError, []⟩
          else ⟨Except.ok s, []⟩

/-- Two successive invocations of `window.__owl_receive`: the host calls the
global afresh per bridge event, a throw escaping the first call does not
prevent the second, and no state write precedes any throwing path. -/
def receiveSeq (m1 m2 : Option Message) (s : ClientState) : ReceiveOut :=
  match (owlReceive m1 s).result with
  | Except.ok s1 => owlReceive m2 s1
  | Except.error _ => owlReceive m2 s

/-- A JSON-shaped value, enough to express the envelope the client posts. -/
inductive JsLite where
  | str (s : String)
  | obj (fields : List (String × JsLite))

/-- The field names of a serialized top-level JSON object. -/
def topKeys : JsLite → List String
  | JsLite.str _ => []
  | JsLite.obj fs => fs.map Prod.fst

/-- The object literal `JSON.stringify` receives inside `send`: exactly a
`type` field and a `payload` field, in that order. -/
def outboundEnvelope (type : String) (payload : JsLite) : JsLite :=
  JsLite.obj [("type", JsLite.str type), ("payload", payload)]

/-- The observable outcome of one `send(type, payload)` call: a console
warning when the bridge handle is unavailable, a posted serialized envelope,
or a console error when serialization or postMessage threw. There is no
escaped-exception outcome: the source returns early or catches. -/
inductive SendOutcome where
  | warnedNoBridge (type : String)
  | sent (envelope : JsLite)
  | errorLogged (type : String) (err : String)

/-- `send(type, payload)` from src/assets/ui.js. `bridge` models
`window.webkit?.messageHandlers?.owl` (absent outside the WebKit host);
`postError` is the exception, if any, raised inside the try block by
`bridge.postMessage(JSON.stringify(envelope))`. -/
def send (bridge : Option Unit) (type : String) (payload : JsLite)
    (postError : Option String) : SendOutcome :=
  match bridge with
  | Option.none => SendOutcome.warnedNoBridge type
  | some _ =>
      match postError with
      | some e => SendOutcome.errorLogged type e
      | Option.none => SendOutcome.sent (outboundEnvelope type payload)

/-- The enumerated inbound command set of spec §6. -/
def inboundCommandTypes : List String :=
  ["ui.ready", "ui.sidebar.toggle", "nav.go", "nav.back", "nav.forward",
   "nav.reload", "nav.stop", "nav.home", "tab.create", "tab.close",
   "tab.select", "tab.toggle", "tab.pin", "tab.mute", "tab.unload"]

/-- Every type that reaches `send` from a call site in src/assets/ui.js, in
source order: buildRow's expander button (tab.toggle), its close button
(tab.close), the row click (tab.select), setSidebarCollapsed
(ui.sidebar.toggle), navigateFromAddress (nav.go), the COMMANDS palette
entries (tab.create, nav.back, nav.forward, nav.reload, nav.home),
setupEventHandlers' toolbar buttons (tab.create, nav.home, nav.back,
nav.forward), both branches of the reload/stop click (nav.stop, nav.reload),
the palette Enter fallback (nav.go), the tab context menu (tab.pin, tab.mute,
tab.unload), arrow-key tab navigation (tab.select), and the
DOMContentLoaded hello (ui.ready). -/
def sendCallSiteTypes : List String :=
  ["tab.toggle", "tab.close", "tab.select", "ui.sidebar.toggle", "nav.go",
   "tab.create", "nav.back", "nav.forward", "nav.reload", "nav.home",
   "tab.create", "nav.home", "nav.back", "nav.forward", "nav.stop",
   "nav.reload", "nav.go", "tab.pin", "tab.mute", "tab.unload", "tab.select",
   "ui.ready"]

/-- The malformed inbound messages of claim C2, as the client's guard
`!message?.type` detects them: the message itself is null/undefined, or its
`type` field is falsy (missing, or the empty string). -/
def malformedMsg : Option Message → Prop
  | Option.none => True
  | some m => m.type = Option.none ∨ m.type = some ""

/-- The favicon of the first stored root tab, wrapped so that an empty forest
is distinguishable (observation used by the C7 counterexample). -/
def firstFavicon (s : ClientState) : Option (Option String) :=
  match s.lastTabs with
  | [] => Option.none
  | n :: _ => some n.favicon_uri

/-- The client state right after script load: the literal `state` and
`menuState` initializers of src/assets/ui.js, no rendered rows, and the nav
controls as `setupEventHandlers` initializes them (enabled, reload mode). -/
def cs0 : ClientState :=
  { flatTabs := []
    activeTabId := Option.none
    sidebarCollapsed := false
    defaultFavicon := Option.none
    tabMap := []
    tabQuery := ""
    lastTabs := []
    lastActive := Option.none
    menuOpen := false
    menuTabId := Option.none
    renderedRows := []
    addressValue := ""
    navBackDisabled := false
    navForwardDisabled := false
    reloadMode := ReloadMode.reload
    bodyLoading := false }

/-- A small concrete forest used by concrete-input theorems: one expanded
root with one child. -/
def demoLeaf : TabNode :=
  TabNode.mk 2 (some "Docs") (some "https://docs.example") Option.none false
    false false false false false []

def demoRoot : TabNode :=
  TabNode.mk 1 (some "Example") (some "https://example.com") (some "fav")
    false false false false true true [demoLeaf]

def demoTabs : List TabNode := [demoRoot]

/-- A single-tab forest whose root carries a favicon (C7 counterexample). -/
def faviconTab : TabNode :=
  TabNode.mk 1 (some "t") (some "u") (some "old") false false false false
    false false []

def faviconState : ClientState := { cs0 with lastTabs := [faviconTab] }

/-- A well-formed `state.tabs` message (used after a malformed one). -/
def wellFormedTabsMsg : Message :=
  { type := some "state.tabs", payload := Payload.tabs demoTabs (some 1) }

/-- An inbound message of an unhandled, forward-compatible type. -/
def unknownMsg : Message :=
  { type := some "state.future", payload := Payload.other }

/-- An inbound message whose type collides with an `Object.prototype`
property name (C3 counterexample). -/
def protoMsg : Message :=
  { type := some "__proto__", payload := Payload.other }

/-! Helper lemmas. -/

theorem expandedWith_eq (n : TabNode) (cs : List TabNode) :
    n.expandedWith cs =
      TabNode.mk n.id n.title n.url n.favicon_uri n.is_group n.is_pinned
        n.is_muted n.is_suspended n.is_active true cs := by
  cases n
  rfl

theorem setFavicon_setChildren_eq (n : TabNode) (f : Option String)
    (cs : List TabNode) :
    (n.setFavicon f).setChildren cs =
      TabNode.mk n.id n.title n.url f n.is_group n.is_pinned n.is_muted
        n.is_suspended n.is_active n.is_expanded cs := by
  cases n
  rfl

theorem renderNodes_ids (nodes : List TabNode) :
    ∀ depth, (renderNodes nodes depth).map (fun p => p.fst.id) =
      preorderRestricted nodes := by
  induction nodes using forestInd with
  | hnil =>
      intro d
      simp [renderNodes, preorderRestricted]
  | hcons n rest ihc ihr =>
      intro d
      simp only [renderNodes, preorderRestricted, List.map_cons, List.map_append]
      rw [ihr d]
      by_cases he : n.is_expanded
      · by_cases hc : n.children.isEmpty
        · have hc0 : n.children = [] := List.isEmpty_iff.mp hc
          simp [he, hc0, preorderRestricted]
        · simp [he, hc, ihc (d + 1)]
      · simp [he]

theorem rowsOf_fst (nodes : List TabNode) :
    (rowsOf nodes).map Prod.fst = flatIds nodes := by
  simp [rowsOf, flatIds, List.map_map]

theorem preorderRestricted_sublist (nodes : List TabNode) :
    List.Sublist (preorderRestricted nodes) (preorderIds nodes) := by
  induction nodes using forestInd with
  | hnil => simp [preorderRestricted, preorderIds]
  | hcons n rest ihc ihr =>
      simp only [preorderRestricted, preorderIds]
      refine List.Sublist.cons₂ _ ?_
      by_cases he : n.is_expanded
      · simpa [he] using ihc.append ihr
      · simp only [he, if_neg, List.nil_append, Bool.false_eq_true, ite_false]
        exact ihr.trans (List.sublist_append_right _ _)

theorem keepsAny_cons (needle : String) (n : TabNode) (rest : List TabNode) :
    keepsAny needle (n :: rest) = (keeps needle n || keepsAny needle rest) := by
  simp [keepsAny, keeps]

theorem specFilter_isEmpty (needle : String) (ns : List TabNode) :
    (specFilter needle ns).isEmpty = !keepsAny needle ns := by
  induction ns with
  | nil => simp [specFilter, keepsAny]
  | cons n rest ih =>
      by_cases hk : keeps needle n
      · simp [specFilter, keepsAny_cons, hk]
      · simp [specFilter, keepsAny_cons, hk, ih]

theorem filterNodes_empty (nodes : List TabNode) : filterNodes nodes "" = nodes := by
  rw [filterNodes.eq_def]
  simp

theorem filterNodes_cons (query : String) (hq : query ≠ "") (n : TabNode)
    (rest : List TabNode) :
    filterNodes (n :: rest) query =
      (if nodeMatches query.toLower n ||
          !(if n.children.isEmpty then [] else filterNodes n.children query).isEmpty then
        n.expandedWith
            (if n.children.isEmpty then [] else filterNodes n.children query) ::
          filterNodes rest query
      else filterNodes rest query) := by
  rw [filterNodes.eq_def]
  simp only [if_neg hq]

theorem filterNodes_spec (query : String) (hq : query ≠ "") :
    ∀ nodes, filterNodes nodes query = specFilter query.toLower nodes := by
  intro nodes
  induction nodes using forestInd with
  | hnil =>
      rw [filterNodes.eq_def]
      simp [hq, specFilter]
  | hcons n rest ihc ihr =>
      have hch : (if n.children.isEmpty then ([] : List TabNode)
          else filterNodes n.children query) = specFilter query.toLower n.children := by
        by_cases hc : n.children.isEmpty
        · have hc0 : n.children = [] := List.isEmpty_iff.mp hc
          rw [hc0]
          simp [specFilter]
        · simp [hc, ihc]
      have hcond : (nodeMatches query.toLower n ||
          !(specFilter query.toLower n.children).isEmpty) = keeps query.toLower n := by
        rw [specFilter_isEmpty]
        simp [keeps]
      rw [filterNodes_cons query hq n rest, hch, ihr, hcond]
      by_cases hk : keeps query.toLower n
      · simp [hk, specFilter, expandedWith_eq]
      · simp [hk, specFilter]

theorem updateTreeFavicon_spec (ids : List Nat) (uri : Option String) :
    ∀ nodes, updateTreeFavicon nodes ids uri = specSetFavicon ids uri nodes := by
  intro nodes
  induction nodes using forestInd with
  | hnil => simp [updateTreeFavicon, specSetFavicon]
  | hcons n rest ihc ihr =>
      have hch : (if n.children.isEmpty then n.children
          else updateTreeFavicon n.children ids uri) = specSetFavicon ids uri n.children := by
        by_cases hc : n.children.isEmpty
        · have hc0 : n.children = [] := List.isEmpty_iff.mp hc
          rw [hc0]
          simp [specSetFavicon]
        · simp [hc, ihc]
      simp only [updateTreeFavicon, specSetFavicon]
      rw [hch, ihr, setFavicon_setChildren_eq]

theorem eraseFavicons_specSet (ids : List Nat) (uri : Option String) :
    ∀ nodes, eraseFavicons (specSetFavicon ids uri nodes) = eraseFavicons nodes := by
  intro nodes
  induction nodes using forestInd with
  | hnil => simp [specSetFavicon, eraseFavicons]
  | hcons n rest ihc ihr =>
      obtain ⟨i, t, u, f, g, p, m, s, a, e, c⟩ := n
      simp only [TabNode.children] at ihc
      simp only [specSetFavicon, eraseFavicons, TabNode.setFavicon,
        TabNode.setChildren, TabNode.children, TabNode.id, TabNode.title,
        TabNode.url, TabNode.is_group, TabNode.is_pinned, TabNode.is_muted,
        TabNode.is_suspended, TabNode.is_active, TabNode.is_expanded]
      rw [ihc, ihr]

/-! Claim theorems. -/

/-- Claim C1, amended: every message the UI client sends over the bridge is
the envelope `JSON.stringify` receives in `send`, and its serialized form
carries exactly the fields `type` and `payload` — contrary to the claim as
stated, no `schema_version` field is present. -/
theorem C1_envelope (bridge : Option Unit) (type : String) (payload : JsLite)
    (postError : Option String) (env : JsLite)
    (h : send bridge type payload postError = SendOutcome.sent env) :
    topKeys env = ["type", "payload"] ∧ "schema_version" ∉ topKeys env := by
  cases bridge with
  | none => simp [send] at h
  | some u =>
      cases postError with
      | none =>
          simp only [send] at h
          cases h
          exact ⟨rfl, by simp [outboundEnvelope, topKeys]⟩
      | some e => simp [send] at h

theorem C1_envelope_witness :
    topKeys (outboundEnvelope "ui.ready" (JsLite.obj [])) = ["type", "payload"] ∧
    "schema_version" ∉ topKeys (outboundEnvelope "ui.ready" (JsLite.obj [])) :=
  C1_envelope (some ()) "ui.ready" (JsLite.obj []) Option.none
    (outboundEnvelope "ui.ready" (JsLite.obj [])) rfl

/-- Claim C1 as stated is false at the concrete call `send("ui.ready", ...)`:
the posted envelope has no `schema_version` field among its serialized keys. -/
theorem C1_counterexample :
    send (some ()) "ui.ready" (JsLite.obj []) Option.none
        = SendOutcome.sent (outboundEnvelope "ui.ready" (JsLite.obj [])) ∧
    "schema_version" ∉ topKeys (outboundEnvelope "ui.ready" (JsLite.obj [])) :=
  ⟨rfl, by decide⟩

/-- Claim C2, amended: a malformed inbound message (null/undefined, or with a
falsy `type`) is silently ignored — the receiver returns normally *without
logging*, mutates no client state, and a subsequent well-formed message is
processed exactly as if the malformed one had never arrived. -/
theorem C2_malformed_silent (m m2 : Option Message) (s : ClientState)
    (h : malformedMsg m) :
    owlReceive m s = ⟨Except.ok s, []⟩ ∧ receiveSeq m m2 s = owlReceive m2 s := by
  have h1 : owlReceive m s = ⟨Except.ok s, []⟩ := by
    cases m with
    | none => rfl
    | some msg =>
        rcases h with h | h
        · simp [owlReceive, h]
        · simp [owlReceive, h]
  refine ⟨h1, ?_⟩
  simp [receiveSeq, h1]

theorem C2_malformed_silent_witness :
    owlReceive Option.none cs0 = ⟨Except.ok cs0, []⟩ ∧
    receiveSeq Option.none (some wellFormedTabsMsg) cs0
        = owlReceive (some wellFormedTabsMsg) cs0 :=
  C2_malformed_silent Option.none (some wellFormedTabsMsg) cs0 True.intro

/-- Claim C2 as stated is false on its logging requirement: for the malformed
(null) inbound message the claim demands a rejection log entry, but the
receiver's early return writes nothing — the console log of the invocation is
empty. -/
theorem C2_counterexample : (owlReceive Option.none cs0).log = [] := rfl

/-- Claim C3, amended: an inbound message whose type is not one of the five
handled state types leaves every field of the client state unchanged; it also
returns without throwing *except* when the type collides with one of the
`Object.prototype` property names `__proto__`, `__defineGetter__`,
`__defineSetter__`, in which case the dispatch
`messageHandlers[message.type]?.()` throws a TypeError (still without mutating
any state). -/
theorem C3_unknown_ignored (m : Message) (s : ClientState) (t : String)
    (hty : m.type = some t) (hu : t ∉ handledTypes) :
    (t ∉ objectProtoThrowing → owlReceive (some m) s = ⟨Except.ok s, []⟩) ∧
    (t ∈ objectProtoThrowing →
      (owlReceive (some m) s).result = Except.error protoTypeError) := by
  have h1 : ¬t = "state.tabs" := by rintro rfl; exact hu (by simp [handledTypes])
  have h2 : ¬t = "state.nav" := by rintro rfl; exact hu (by simp [handledTypes])
  have h3 : ¬t = "state.assets" := by rintro rfl; exact hu (by simp [handledTypes])
  have h4 : ¬t = "state.favicon" := by rintro rfl; exact hu (by simp [handledTypes])
  have h5 : ¬t = "state.sidebar" := by rintro rfl; exact hu (by simp [handledTypes])
  constructor
  · intro hnp
    by_cases ht0 : t = ""
    · simp [owlReceive, hty, ht0]
    · simp [owlReceive, hty, ht0, h1, h2, h3, h4, h5, hnp]
  · intro hp
    have ht0 : ¬t = "" := by
      rintro rfl
      simp [objectProtoThrowing] at hp
    simp [owlReceive, hty, ht0, h1, h2, h3, h4, h5, hp]

theorem C3_unknown_ignored_witness :
    owlReceive (some unknownMsg) cs0 = ⟨Except.ok cs0, []⟩ :=
  (C3_unknown_ignored unknownMsg cs0 "state.future" rfl (by decide)).1 (by decide)

/-- Claim C3 as stated is false: the type `"__proto__"` is not a handled state
type, yet `messageHandlers["__proto__"]` finds the inherited accessor whose
value, `Object.prototype`, is not callable — so `?.()` throws a TypeError
instead of returning normally. -/
theorem C3_counterexample :
    (owlReceive (some protoMsg) cs0).result = Except.error protoTypeError := rfl

/-- Claim C4: after applying a `state.tabs` snapshot, the stored tree
`state.lastTabs` is exactly the received `tabs`, `state.activeTabId` is the
received `active` id, and — when the tab-search query is empty — the rendered
rows and the flat keyboard order are built from exactly that stored tree. -/
theorem C4_applyState (s : ClientState) (tabs : List TabNode)
    (active : Option Nat) :
    (applyState s tabs active).lastTabs = tabs ∧
    (applyState s tabs active).activeTabId = active ∧
    (s.tabQuery = "" →
      (applyState s tabs active).flatTabs = flatIds tabs ∧
      (applyState s tabs active).renderedRows = rowsOf tabs) := by
  refine ⟨rfl, rfl, fun hq => ?_⟩
  constructor
  · simp only [applyState, renderTabsOn, flatIds]
    rw [hq, filterNodes_empty]
  · simp only [applyState, renderTabsOn, rowsOf]
    rw [hq, filterNodes_empty]

theorem C4_applyState_witness :
    (applyState cs0 demoTabs (some 1)).lastTabs = demoTabs ∧
    (applyState cs0 demoTabs (some 1)).activeTabId = some 1 ∧
    ((applyState cs0 demoTabs (some 1)).flatTabs = flatIds demoTabs ∧
      (applyState cs0 demoTabs (some 1)).renderedRows = rowsOf demoTabs) := by
  have h := C4_applyState cs0 demoTabs (some 1)
  exact ⟨h.1, h.2.1, h.2.2 rfl⟩

/-- Claim C5: every type that any `send` call site of src/assets/ui.js can
emit belongs to the enumerated inbound command set of spec section 6. -/
theorem C5_commands (t : String) (h : t ∈ sendCallSiteTypes) :
    t ∈ inboundCommandTypes := by
  fin_cases h <;> decide

theorem C5_commands_witness :
    "ui.ready" ∈ sendCallSiteTypes ∧ "ui.ready" ∈ inboundCommandTypes :=
  ⟨by decide, C5_commands "ui.ready" (by decide)⟩

/-- Claim C6: after `applyNavState`, Back is disabled exactly when
`can_go_back` is false, Forward is disabled exactly when `can_go_forward` is
false, the reload control is in stop mode exactly when `is_loading` is true,
and a click on that control therefore sends `nav.stop` when the last applied
nav state was loading and `nav.reload` otherwise. -/
theorem C6_nav_controls (s : ClientState)
    (can_go_back can_go_forward is_loading : Bool) :
    (applyNavState s can_go_back can_go_forward is_loading).navBackDisabled
        = !can_go_back ∧
    (applyNavState s can_go_back can_go_forward is_loading).navForwardDisabled
        = !can_go_forward ∧
    (applyNavState s can_go_back can_go_forward is_loading).reloadMode
        = (if is_loading then ReloadMode.stop else ReloadMode.reload) ∧
    reloadClickType (applyNavState s can_go_back can_go_forward is_loading)
        = (if is_loading then "nav.stop" else "nav.reload") := by
  cases is_loading <;> simp [applyNavState, reloadClickType]

/-- Claim C7, amended: applying a `state.favicon` update with a nonempty ids
list rewrites the stored tree so that exactly the listed tabs get the
*normalized* uri `favicon_uri || null` (so the given value itself when it is
a non-empty string, and null when it is empty or missing) while every other
tab and every other field of every tab is reproduced verbatim; an empty or
missing ids list changes nothing at all. -/
theorem C7_favicon_update (s : ClientState) (ids : List Nat)
    (uri : Option String) :
    (ids = [] → applyFaviconUpdate s ids uri = s) ∧
    (ids ≠ [] →
      (applyFaviconUpdate s ids uri).lastTabs
          = specSetFavicon ids (jsOrNull uri) s.lastTabs ∧
      eraseFavicons (applyFaviconUpdate s ids uri).lastTabs
          = eraseFavicons s.lastTabs) := by
  constructor
  · intro h
    simp [applyFaviconUpdate, h]
  · intro h
    have hne : ids.isEmpty = false := by
      cases ids with
      | nil => exact absurd rfl h
      | cons a l => rfl
    constructor
    · simp [applyFaviconUpdate, hne, updateTreeFavicon_spec]
    · simp [applyFaviconUpdate, hne, updateTreeFavicon_spec,
        eraseFavicons_specSet]

theorem C7_favicon_update_witness :
    ([1] ≠ ([] : List Nat)) ∧
    ((applyFaviconUpdate faviconState [1] (some "x")).lastTabs
        = specSetFavicon [1] (jsOrNull (some "x")) faviconState.lastTabs ∧
      eraseFavicons (applyFaviconUpdate faviconState [1] (some "x")).lastTabs
        = eraseFavicons faviconState.lastTabs) :=
  ⟨by decide, (C7_favicon_update faviconState [1] (some "x")).2 (by decide)⟩

/-- Claim C7 as stated is false for the payload `favicon_uri = ""` with
`ids = [1]`: the claim requires tab 1's favicon to become the given value
(the empty string), but `payload.favicon_uri || null` normalizes it to null,
so the stored favicon is null, not the given value. -/
theorem C7_counterexample :
    firstFavicon (applyFaviconUpdate faviconState [1] (some "")) = some Option.none ∧
    some (Option.none : Option String) ≠ some (some "") := by
  constructor
  · simp [applyFaviconUpdate, jsOrNull, updateTreeFavicon_spec, specSetFavicon,
      faviconState, faviconTab, cs0, firstFavicon, mapGet, mapSet,
      TabNode.id, TabNode.favicon_uri, TabNode.title, TabNode.url,
      TabNode.is_group, TabNode.is_pinned, TabNode.is_muted,
      TabNode.is_suspended, TabNode.is_active, TabNode.is_expanded,
      TabNode.children, TabNode.setFavicon]
  · simp

/-- Claim C8: the sidebar renders rows in depth-first preorder respecting the
ordered children lists, descending into a node's children exactly when its
`is_expanded` flag is true; the flat keyboard order `state.flatTabs` (and the
id sequence of the rendered rows) equals the preorder traversal restricted to
nodes all of whose ancestors are expanded, which is a sublist of the full
preorder. -/
theorem C8_render_order (nodes : List TabNode) :
    flatIds nodes = preorderRestricted nodes ∧
    (rowsOf nodes).map Prod.fst = preorderRestricted nodes ∧
    List.Sublist (preorderRestricted nodes) (preorderIds nodes) :=
  ⟨renderNodes_ids nodes 0,
   by rw [rowsOf_fst]; exact renderNodes_ids nodes 0,
   preorderRestricted_sublist nodes⟩

/-- Claim C9: `filterNodes` is the identity on the node list when the query
is empty; for a non-empty query it equals the specification filter: a node is
kept exactly when its title or url contains the query case-insensitively or
some descendant is kept, every kept node is emitted with `is_expanded` forced
to true and its children replaced by their filtered sublist, and (the pure
embedding mirroring the source's copy-by-spread) the input is never mutated. -/
theorem C9_filter (nodes : List TabNode) (query : String) :
    filterNodes nodes "" = nodes ∧
    (query ≠ "" → filterNodes nodes query = specFilter query.toLower nodes) :=
  ⟨filterNodes_empty nodes, fun hq => filterNodes_spec query hq nodes⟩

theorem C9_filter_witness :
    filterNodes demoTabs "" = demoTabs ∧
    filterNodes demoTabs "docs" = specFilter ("docs".toLower) demoTabs :=
  ⟨(C9_filter demoTabs "docs").1, (C9_filter demoTabs "docs").2 (by decide)⟩

/-- Claim C10: `send` is total and never throws — with no bridge handle it
only logs a warning and sends nothing; when posting raises an exception, the
exception is caught and logged as an error; otherwise the envelope is posted.
Every outcome is one of these three benign constructors, so no UI event
handler can crash via an outbound bridge call. -/
theorem C10_send_total (bridge : Option Unit) (type : String)
    (payload : JsLite) (postError : Option String) (e : String) :
    (bridge = Option.none →
      send bridge type payload postError = SendOutcome.warnedNoBridge type) ∧
    (bridge.isSome = true → postError = some e →
      send bridge type payload postError = SendOutcome.errorLogged type e) ∧
    (bridge.isSome = true → postError = Option.none →
      send bridge type payload postError
          = SendOutcome.sent (outboundEnvelope type payload)) := by
  cases bridge <;> cases postError <;>
    refine ⟨fun h1 => ?_, fun h2 h3 => ?_, fun h4 h5 => ?_⟩ <;>
    simp_all [send]

theorem C10_send_total_witness :
    send Option.none "nav.back" (JsLite.obj []) (some "boom")
        = SendOutcome.warnedNoBridge "nav.back" ∧
    send (some ()) "nav.back" (JsLite.obj []) (some "boom")
        = SendOutcome.errorLogged "nav.back" "boom" ∧
    send (some ()) "ui.ready" (JsLite.obj []) Option.none
        = SendOutcome.sent (outboundEnvelope "ui.ready" (JsLite.obj [])) :=
  ⟨(C10_send_total Option.none "nav.back" (JsLite.obj []) (some "boom") "boom").1 rfl,
   (C10_send_total (some ()) "nav.back" (JsLite.obj []) (some "boom") "boom").2.1 rfl rfl,
   (C10_send_total (some ()) "ui.ready" (JsLite.obj []) Option.none "x").2.2 rfl rfl⟩

end OwlUi
